import Mathlib

/-! Verification of the SocialNetworkSimulatorV3 build orchestrator (`build.py`).

A shallow embedding of the command/version orchestration engine of
`build.py`: the Java major-version parser, the version gate shared by the
`compile` and `run` commands, the runtime-option builder, classpath
assembly, the venv lifecycle manager, the subprocess runner's invocation
shape, and the exit-code behaviour of the `info` command.

Filesystem facts (directory presence, directory listings, probe outputs)
are inputs to the embedded functions: each embedded command is a pure
function from such a state to its observable outcome (the fatal error it
aborts with, or the external command it spawns).
-/

/-! ## Basic string helpers

`digitsToNat` is Python's `int` on a nonempty string of decimal digits.
`charListEndsWith` / `strEndsWith` embed Python's `str.endswith`.
`charListLe` is lexicographic order on strings, used only to state
sortedness of classpath entries.
-/

def digitsToNat (ds : List Char) : Nat :=
  ds.foldl (fun a c => 10 * a + (c.toNat - 48)) 0

def charListEndsWith (s t : List Char) : Bool :=
  s.drop (s.length - t.length) == t

def strEndsWith (s t : String) : Bool :=
  charListEndsWith s.data t.data

def charListLe : List Char → List Char → Bool
  | [], _ => true
  | _ :: _, [] => false
  | a :: as, b :: bs => if a < b then true else if b < a then false else charListLe as bs

/-! ## ToolProbe: the Java major-version parser

`fetch_java_major_ver` (build.py lines 212–219) runs
`re.match(r"(\d+)(?:.(\d+))?", version_string)` — note the unescaped `.`,
which matches any character except a newline — and returns
`int(group(2))` when `int(group(1)) == 1` and group 2 matched
(legacy `1.X` form), else `int(group(1))`.

Since `(\d+)` is greedy and the trailing group is optional (an empty
match of the optional group always succeeds, so the engine never
backtracks into the leading `(\d+)`), the match semantics are: group 1 is
the maximal leading run of digits (the match fails if it is empty); the
remainder then starts with a non-digit; if that first remaining character
exists, is not a newline, and is followed by at least one digit, group 2
is the maximal digit run after it, else group 2 is absent.
`javaVerMatch` implements exactly that. -/

def javaVerMatch (s : List Char) : Option (List Char × Option (List Char)) :=
  let d1 := s.takeWhile Char.isDigit
  if d1 = [] then none
  else
    match s.dropWhile Char.isDigit with
    | [] => some (d1, none)
    | c :: rest2 =>
      if c = '\n' then some (d1, none)
      else
        let d2 := rest2.takeWhile Char.isDigit
        if d2 = [] then some (d1, none) else some (d1, some d2)

/-- Embeds `fetch_java_major_ver` (build.py lines 212–219) at the level
of character lists.  The Python guard `if not version_string or
version_string in ["Unknown format", "Error", None]` is the first branch
(the `None` case is handled at call sites, which pass an `Option String`
through `Option.bind`). -/
def fetch_java_major_ver_chars (s : List Char) : Option Nat :=
  if s = [] ∨ s = ("Unknown format" : String).data ∨ s = ("Error" : String).data then
    none
  else
    match javaVerMatch s with
    | none => none
    | some (d1, g2) =>
      let major := digitsToNat d1
      match g2 with
      | some d2 => if major = 1 then digitsToNat d2 else major
      | none => major

/-- The `String`-level `fetch_java_major_ver`, via the character list. -/
def fetch_java_major_ver (s : String) : Option Nat :=
  fetch_java_major_ver_chars s.data


/-! ## Shared constants (build.py lines 45–57) -/

def MIN_JAVA_VERSION : Nat := 8

def ALLOWED_PYTHON_VERSIONS : List (Nat × Nat) := [(3, 9), (3, 10)]

def JAVA_MAIN_CLASS : String := "jade.Boot"

def JAVA_MAIN_AGENT : String := "controller:TwitterGatherDataFollowers.userRyersonU.ControllerAgent"

/-! ## The Java version gate shared by `compile_java` and `run`

build.py repeats the same code at lines 354–362 (`compile_java`) and
lines 429–435 (`run`):

    java_major = fetch_java_major_ver(java_version_str)
    if java_major and java_major < MIN_JAVA_VERSION:
        perr(...)                               # fatal, exit 1
    elif not java_major and java_version_str not in [None, "Error", "Unknown format"]:
        pwarn(...)                              # warning only, continue

Python truthiness of `java_major` (an `int` or `None`): falsy iff the
value is `None` or `0`; `(Option.getD jm 0) != 0` encodes exactly that,
and the value compared against the minimum is `Option.getD jm 0` in the
truthy case. -/

inductive GateResult
  | fatal
  | warn
  | ok
deriving DecidableEq

def java_version_gate (vs : Option String) : GateResult :=
  let jm := vs.bind fetch_java_major_ver
  if jm.getD 0 ≠ 0 ∧ jm.getD 0 < MIN_JAVA_VERSION then GateResult.fatal
  else if jm.getD 0 = 0 ∧ ¬(vs = none ∨ vs = some "Error" ∨ vs = some "Unknown format") then
    GateResult.warn
  else GateResult.ok

/-! ## Launcher runtime options (`java_runtime_opts`, build.py lines 392–418) -/

def base_java_opts : List String := ["-Xms256m", "-Xmx1424m", "-XX:-UseGCOverheadLimit"]

def jade_opts : List String :=
  ["-jade_domain_df_maxresult", "1500",
   "-jade_core_messaging_MessageManager_poolsize", "10",
   "-jade_core_messaging_MessageManager_maxqueuesize", "2000000000",
   "-jade_core_messaging_MessageManager_deliverytimethreshold", "10000",
   "-jade_domain_df_autocleanup", "true",
   "-local-port", "35240"]

def modules_to_open : List String :=
  ["java.base/java.lang", "java.base/java.io", "java.base/java.util",
   "java.base/java.util.concurrent", "java.base/sun.nio.ch", "java.base/java.net"]

def addOpensPair (module_spec : String) : List String :=
  ["--add-opens", module_spec ++ "=ALL-UNNAMED"]

/-- Embeds `java_runtime_opts` (build.py lines 392–418).  The Python
condition `if java_major_version and java_major_version >= 9` is truthiness
(not `None`, not `0`) conjoined with the comparison; the `elif`/`else`
branches only print. -/
def java_runtime_opts (java_major_version : Option Nat) : List String × List String :=
  let java_opts :=
    match java_major_version with
    | some m => if m ≠ 0 ∧ 9 ≤ m then base_java_opts ++ (modules_to_open.map addOpensPair).flatten
                else base_java_opts
    | none => base_java_opts
  (java_opts, jade_opts)

/-! ## Paths and classpath assembly

`Cfg` carries the host-dependent `os.sep` (path-component separator),
`os.pathsep` (classpath separator) and the project root (`PROJECT_ROOT`
is the directory of the script).  `os.path.join(dir, name)` for a plain
file name is `dir + sep + name`. -/

structure Cfg where
  sep : String
  pathsep : String
  root : String
deriving DecidableEq

def os_path_join (cfg : Cfg) (a b : String) : String := a ++ cfg.sep ++ b

def VENV_DIR (cfg : Cfg) : String := os_path_join cfg cfg.root ".venv"

def LIB_DIR (cfg : Cfg) : String := os_path_join cfg cfg.root "lib"

def CLASSES_DIR (cfg : Cfg) : String := os_path_join cfg cfg.root "classes"

/-- Embeds the library-jar discovery of `compile_java` (build.py lines
376–381): `[os.path.join(LIB_DIR, f) for f in os.listdir(LIB_DIR) if
f.endswith(".jar")]` when `LIB_DIR` is a directory, else `[]` (with a
warning).  `lib` is `none` when `os.path.isdir(LIB_DIR)` is false, else
`some listing` where `listing` is the `os.listdir(LIB_DIR)` result in the
order the operating system returned it (the code does not sort it). -/
def compile_lib_jars (cfg : Cfg) (lib : Option (List String)) : List String :=
  match lib with
  | some listing =>
    (listing.filter (fun f => strEndsWith f ".jar")).map (fun f => os_path_join cfg (LIB_DIR cfg) f)
  | none => []

/-- Line 383 of build.py: `classpath_entries = [CLASSES_DIR] + lib_jars`. -/
def compile_classpath_entries (cfg : Cfg) (lib : Option (List String)) : List String :=
  CLASSES_DIR cfg :: compile_lib_jars cfg lib

/-- Line 384 of build.py: `classpath_str = os.pathsep.join(classpath_entries)`. -/
def compile_classpath_str (cfg : Cfg) (lib : Option (List String)) : String :=
  String.intercalate cfg.pathsep (compile_classpath_entries cfg lib)

/-- Embeds the library-jar discovery of `run` (build.py lines 449–450):
`lib_jars = []; if os.path.isdir(LIB_DIR): lib_jars = [os.path.join(LIB_DIR, f)
for f in os.listdir(LIB_DIR) if f.endswith(".jar")]`. -/
def run_lib_jars (cfg : Cfg) (lib : Option (List String)) : List String :=
  match lib with
  | none => []
  | some listing =>
    (listing.filter (fun f => strEndsWith f ".jar")).map (fun f => os_path_join cfg (LIB_DIR cfg) f)

/-- Line 451 of build.py: `classpath_entries = [CLASSES_DIR] + lib_jars`. -/
def run_classpath_entries (cfg : Cfg) (lib : Option (List String)) : List String :=
  CLASSES_DIR cfg :: run_lib_jars cfg lib

/-- Line 452 of build.py: `classpath_str = os.pathsep.join(classpath_entries)`. -/
def run_classpath_str (cfg : Cfg) (lib : Option (List String)) : String :=
  String.intercalate cfg.pathsep (run_classpath_entries cfg lib)

/-! ## The `compile` command (`compile_java`, build.py lines 348–390)

State inputs: whether `shutil.which("javac")` finds the compiler, the
Java version string probed by `fetch_java_version_str` (`none` models
Python `None`), whether the source root is a directory, the list of file
paths produced by walking the source root, and the library-cache state
as for the classpath functions.  The outcome is the fatal error the
command aborts with, the no-op return on an empty source tree, or the
`javac` argument vector it hands to `run_cmd`. -/

structure CompileState where
  javac_found : Bool
  java_version_str : Option String
  src_isdir : Bool
  src_walk : List String
  lib_state : Option (List String)
deriving DecidableEq

inductive CompileOutcome
  | fatalToolNotFound
  | fatalVersionIncompatible
  | fatalSrcMissing
  | noopNoSources
  | invoked (cmd : List String)
deriving DecidableEq

def CompileOutcome.isFatal : CompileOutcome → Bool
  | fatalToolNotFound => true
  | fatalVersionIncompatible => true
  | fatalSrcMissing => true
  | noopNoSources => false
  | invoked _ => false

/-- Embeds `compile_java` (build.py lines 348–390): `check_tool("javac", ...)`
(fatal if absent), the version gate (lines 354–362), `os.makedirs(CLASSES_DIR)`
(an effect with no branch), the source-directory check (line 368), source
discovery filtered on `.endswith(".java")` (line 369), the no-op return when
no sources are found (line 371), and otherwise the `javac` invocation built
at line 387. -/
def compile_java (cfg : Cfg) (st : CompileState) : CompileOutcome :=
  if ¬ st.javac_found then CompileOutcome.fatalToolNotFound
  else if java_version_gate st.java_version_str = GateResult.fatal then
    CompileOutcome.fatalVersionIncompatible
  else if ¬ st.src_isdir then CompileOutcome.fatalSrcMissing
  else
    let java_files := st.src_walk.filter (fun f => strEndsWith f ".java")
    if java_files = [] then CompileOutcome.noopNoSources
    else
      CompileOutcome.invoked
        (["javac", "-Xlint:unchecked", "-encoding", "UTF-8",
          "-cp", compile_classpath_str cfg st.lib_state, "-d", CLASSES_DIR cfg] ++ java_files)

/-! ## The `run` command (build.py lines 420–467)

State inputs mirror the checks the command performs, in source order:
`shutil.which("java")`, the probed version string, `os.path.isdir(VENV_DIR)`,
`os.path.isdir(CLASSES_DIR)`, `os.listdir(CLASSES_DIR)`, the library-cache
state, and whether the venv's Python executable exists (consulted by
`venv_env_vars`, whose `None` result is fatal at line 446). -/

structure RunState where
  java_found : Bool
  java_version_str : Option String
  venv_dir_isdir : Bool
  venv_python_exists : Bool
  classes_isdir : Bool
  classes_listing : List String
  lib_state : Option (List String)
deriving DecidableEq

inductive RunOutcome
  | fatalToolNotFound
  | fatalVersionIncompatible
  | fatalVenvMissing
  | fatalClassesMissing
  | fatalClassesEmpty
  | fatalEnvPrep
  | spawned (cmd : List String)
deriving DecidableEq

def RunOutcome.isSpawned : RunOutcome → Bool
  | spawned _ => true
  | _ => false

/-- Embeds `run` (build.py lines 420–467): `check_tool("java", ...)` (fatal
if absent), the version gate (lines 429–435), the venv-directory check
(line 437), the classes-directory checks (lines 438–439), the library
check (lines 440–441, warning only), `venv_env_vars()` (fatal when the
venv Python executable is missing, line 446), then the classpath (lines
449–452), `java_runtime_opts(java_major)` (line 455) and the full `java`
argument vector of line 456. -/
def run_command (cfg : Cfg) (st : RunState) : RunOutcome :=
  if ¬ st.java_found then RunOutcome.fatalToolNotFound
  else if java_version_gate st.java_version_str = GateResult.fatal then
    RunOutcome.fatalVersionIncompatible
  else if ¬ st.venv_dir_isdir then RunOutcome.fatalVenvMissing
  else if ¬ st.classes_isdir then RunOutcome.fatalClassesMissing
  else if st.classes_listing = [] then RunOutcome.fatalClassesEmpty
  else if ¬ st.venv_python_exists then RunOutcome.fatalEnvPrep
  else
    let java_major := st.java_version_str.bind fetch_java_major_ver
    let opts := java_runtime_opts java_major
    RunOutcome.spawned
      (["java"] ++ opts.1 ++ ["-cp", run_classpath_str cfg st.lib_state, JAVA_MAIN_CLASS]
        ++ opts.2 ++ [JAVA_MAIN_AGENT])

/-! ## EnvironmentManager (`ensure_venv`, build.py lines 238–269)

The filesystem effects of `ensure_venv` are recorded as a list of
`VenvEffect`s in program order.  State inputs: `os.path.isdir(VENV_DIR)`,
`os.path.exists(VENV_DIR)` (these differ when the venv path is a plain
file), whether the venv Python executable exists, and the `(major, minor)`
tuple that `fetch_py_version` parses from the interpreter probe (`none`
when the probe output is unparseable; the probe only runs in the
present-venv branch).  The raw probed version string only feeds messages
and is not modelled; creation failure (an exception from `venv.create`)
is likewise outside this model, which records the attempted effects. -/

structure VenvState where
  venv_dir_isdir : Bool
  venv_dir_exists : Bool
  venv_python_exists : Bool
  version_tuple : Option (Nat × Nat)
deriving DecidableEq

inductive VenvEffect
  | removeDir
  | createDir
  | warnMismatch
  | warnUnknownVersion
  | infoCompatible
deriving DecidableEq

/-- Embeds `ensure_venv` (build.py lines 238–269).  Creation branch when
the directory is missing or the interpreter is missing: an existing
(incomplete) directory is first removed (`shutil.rmtree`, line 248), then
`venv.create` runs (line 250).  Present branch: a version outside
`ALLOWED_PYTHON_VERSIONS` only warns (lines 261–265, Python tuple
truthiness: a 2-tuple is always truthy, so truthiness is `isSome`); an
unparseable version only warns (lines 266–267); otherwise an info message
(line 269).  No branch of the present case removes or creates anything. -/
def ensure_venv (st : VenvState) : List VenvEffect :=
  if ¬ st.venv_dir_isdir ∨ ¬ st.venv_python_exists then
    (if st.venv_dir_exists then [VenvEffect.removeDir] else []) ++ [VenvEffect.createDir]
  else
    match st.version_tuple with
    | some t =>
      if t ∉ ALLOWED_PYTHON_VERSIONS then [VenvEffect.warnMismatch]
      else [VenvEffect.infoCompatible]
    | none => [VenvEffect.warnUnknownVersion]

/-! ## ProcessRunner (`run_cmd`, build.py lines 105–128)

The shape of the `subprocess.run` invocation that `run_cmd` performs:
the argument vector (`[str(c) for c in cmd]`, passed as a list, never
joined into a string by the script), the `shell` flag — set at lines
107–109 to `True` exactly when `platform.system() == "Windows"` — and
the capture mode (`capture = not VERBOSE`, overridden by
`capture_output_override` when given, lines 116–117). -/

inductive OSKind
  | windows
  | posix
deriving DecidableEq

structure Invocation where
  argv : List String
  shell : Bool
  capture : Bool
deriving DecidableEq

/-- Embeds the invocation assembly of `run_cmd` (build.py lines 105–128). -/
def run_cmd_invocation (osk : OSKind) (verbose : Bool) (cmd : List String)
    (capture_output_override : Option Bool) : Invocation :=
  ⟨cmd, osk == OSKind.windows, capture_output_override.getD (!verbose)⟩

/-! ## Python version probing and the `info` command (build.py lines 469–514)

`run_cmd` aborts the whole process through `perr` (which calls
`sys.exit(1)`, raising `SystemExit`) in two cases: `subprocess.run`
raises `FileNotFoundError` because the executable is absent (lines
137–139 — this fires even when `check=False`), and a nonzero exit code
with `check=True` (lines 130–135).  `SystemExit` derives from
`BaseException`, not `Exception`, so neither the `except Exception`
handler in `fetch_py_version` (line 167) nor the `except
FileNotFoundError` handler in `fetch_java_version_str` (line 209) can
catch it: both handlers sit outside `run_cmd`, which has already exited.
`run_cmd_exit` captures this: `.error 1` is a `perr` process exit with
code 1, `.ok` returns the probe result.  (`found = false` models the
POSIX `FileNotFoundError`; on Windows `shell=True` turns a missing tool
into a nonzero exit of `cmd.exe` instead.) -/

structure ProbeRun where
  exitCode : Nat
  output : String
deriving DecidableEq

def run_cmd_exit (found : Bool) (check : Bool) (res : ProbeRun) : Except Nat ProbeRun :=
  if ¬ found then Except.error 1
  else if check ∧ res.exitCode ≠ 0 then Except.error 1
  else Except.ok res

/-- Embeds the position-wise attempt of `re.search(r"Python (\d+)\.(\d+)(?:\.\d+)?", s)`
(build.py line 160) at the head of `s`: the literal `Python `, then a
maximal nonempty digit run (group 1), a literal dot, and a maximal
nonempty digit run (group 2); the optional `(?:\.\d+)?` adds no groups.
Greediness never forces backtracking here: a shorter digit run for
group 1 would leave a digit where the dot is required. -/
def pyVerMatchAt (s : List Char) : Option (Nat × Nat) :=
  match s with
  | 'P' :: 'y' :: 't' :: 'h' :: 'o' :: 'n' :: ' ' :: rest =>
    let d1 := rest.takeWhile Char.isDigit
    if d1 = [] then none
    else
      match rest.dropWhile Char.isDigit with
      | '.' :: rest2 =>
        let d2 := rest2.takeWhile Char.isDigit
        if d2 = [] then none else some (digitsToNat d1, digitsToNat d2)
      | _ => none
  | _ => none

/-- Embeds the scan of `re.search`, trying every start position left to right. -/
def pyVerSearch : List Char → Option (Nat × Nat)
  | [] => none
  | c :: rest =>
    match pyVerMatchAt (c :: rest) with
    | some r => some r
    | none => pyVerSearch rest

/-- Embeds `fetch_py_version` (build.py lines 151–169).  A missing
executable returns `(None, None)` (lines 153–155).  Otherwise
`run_cmd([python_exe, "--version"], ..., check=True)` runs: a nonzero
exit makes `perr` terminate the process with exit code 1 (`Except.error`),
bypassing the `except Exception` recovery at lines 167–169.  On success
the combined output is matched for `Python X.Y`; an unparseable string
returns it with no tuple (warning only, lines 165–166). -/
def fetch_py_version (exeExists : Bool) (probe : ProbeRun) :
    Except Nat (Option String × Option (Nat × Nat)) :=
  if ¬ exeExists then Except.ok (none, none)
  else
    match run_cmd_exit true true probe with
    | Except.error c => Except.error c
    | Except.ok r =>
      match pyVerSearch r.output.data with
      | some mm => Except.ok (some r.output, some mm)
      | none => Except.ok (some r.output, none)

/-! ## Exit code of the `info` command (build.py lines 469–514)

`info` probes, in order: Java (`fetch_java_version_str`, a
`check=False` probe whose only process-terminating path is the
`FileNotFoundError` branch of `run_cmd`), Maven (same shape), the Python
running the script (`fetch_py_version(sys.executable)`), and — when both
the venv directory and its interpreter exist (line 497) — the venv
Python.  Everything else in `info` is printing.  When no probe
terminates the process, `info` falls through and the script exits 0. -/

structure InfoState where
  java_found : Bool
  java_run : ProbeRun
  mvn_found : Bool
  mvn_run : ProbeRun
  script_py_exists : Bool
  script_py_run : ProbeRun
  venv_dir_exists : Bool
  venv_python_exists : Bool
  venv_py_run : ProbeRun
deriving DecidableEq

def info_exit_code (st : InfoState) : Nat :=
  match run_cmd_exit st.java_found false st.java_run with
  | Except.error c => c
  | Except.ok _ =>
    match run_cmd_exit st.mvn_found false st.mvn_run with
    | Except.error c => c
    | Except.ok _ =>
      match fetch_py_version st.script_py_exists st.script_py_run with
      | Except.error c => c
      | Except.ok _ =>
        if st.venv_dir_exists ∧ st.venv_python_exists then
          match fetch_py_version true st.venv_py_run with
          | Except.error c => c
          | Except.ok _ => 0
        else 0

/-! ## Concrete states used for closed evaluations -/

/-- A POSIX host configuration: `os.sep = "/"`, `os.pathsep = ":"`,
project root `"."`.  Field order: sep, pathsep, root. -/
def cfgEx : Cfg := ⟨"/", ":", "."⟩

/-- A `run` state that is healthy except that the compiled-classes
directory is absent.  Field order: java_found, java_version_str,
venv_dir_isdir, venv_python_exists, classes_isdir, classes_listing,
lib_state. -/
def runStNoClasses : RunState :=
  ⟨true, some "17.0.2", true, true, false, [], some ["x.jar"]⟩

/-- A fully healthy `run` state whose probed Java version string is
unparseable ("beta" has no leading digit, so `fetch_java_major_ver`
returns `none`). -/
def runStUnparseable : RunState :=
  ⟨true, some "beta", true, true, true, ["A.class"], some ["x.jar"]⟩

/-- A `compile` state whose probed Java version string is unparseable and
whose source tree is empty. -/
def compileStUnparseable : CompileState :=
  ⟨true, some "beta", true, [], some ["x.jar"]⟩

/-- A `compile` state with tooling present, a parseable modern version,
and a source root that exists but holds no `.java` files. -/
def compileStEmptySrc : CompileState :=
  ⟨true, some "17.0.2", true, ["notes.txt"], some ["x.jar"]⟩

/-- A present, complete venv whose interpreter probes to Python 3.12 —
outside the allowed set {(3,9),(3,10)}.  Field order: venv_dir_isdir,
venv_dir_exists, venv_python_exists, version_tuple. -/
def venvStMismatch : VenvState := ⟨true, true, true, some (3, 12)⟩

/-- An `info` state on a POSIX host where the `java` executable is
absent and everything else is healthy.  Field order: java_found,
java_run, mvn_found, mvn_run, script_py_exists, script_py_run,
venv_dir_exists, venv_python_exists, venv_py_run. -/
def infoStNoJava : InfoState :=
  ⟨false, ⟨0, ""⟩, true, ⟨0, "Apache Maven 3.8.6"⟩,
   true, ⟨0, "Python 3.9.7"⟩, false, false, ⟨0, ""⟩⟩

/-- An `info` state where all tools are present but the script's own
Python interpreter exits nonzero from its `--version` probe. -/
def infoStPyProbeFails : InfoState :=
  ⟨true, ⟨0, "openjdk version \x2217.0.2\x22"⟩, true, ⟨0, "Apache Maven 3.8.6"⟩,
   true, ⟨1, "boom"⟩, false, false, ⟨0, ""⟩⟩

/-! ## Helper lemmas on `takeWhile` / `dropWhile` -/

theorem takeWhile_all {α : Type} (p : α → Bool) (xs : List α) (h : ∀ c ∈ xs, p c = true) :
    xs.takeWhile p = xs := by
  induction xs with
  | nil => rfl
  | cons a l ih =>
    have ha : p a = true := h a (List.mem_cons_self a l)
    simp [List.takeWhile_cons, ha, ih (fun c hc => h c (List.mem_cons_of_mem a hc))]

theorem dropWhile_all {α : Type} (p : α → Bool) (xs : List α) (h : ∀ c ∈ xs, p c = true) :
    xs.dropWhile p = [] := by
  induction xs with
  | nil => rfl
  | cons a l ih =>
    have ha : p a = true := h a (List.mem_cons_self a l)
    simp [List.dropWhile_cons, ha, ih (fun c hc => h c (List.mem_cons_of_mem a hc))]

theorem takeWhile_append_all {α : Type} (p : α → Bool) (xs ys : List α)
    (h : ∀ c ∈ xs, p c = true) :
    (xs ++ ys).takeWhile p = xs ++ ys.takeWhile p := by
  induction xs with
  | nil => rfl
  | cons a l ih =>
    have ha : p a = true := h a (List.mem_cons_self a l)
    simp [List.takeWhile_cons, ha, ih (fun c hc => h c (List.mem_cons_of_mem a hc))]

theorem dropWhile_append_all {α : Type} (p : α → Bool) (xs ys : List α)
    (h : ∀ c ∈ xs, p c = true) :
    (xs ++ ys).dropWhile p = ys.dropWhile p := by
  induction xs with
  | nil => rfl
  | cons a l ih =>
    have ha : p a = true := h a (List.mem_cons_self a l)
    simp [List.dropWhile_cons, ha, ih (fun c hc => h c (List.mem_cons_of_mem a hc))]

/-- The guard of `fetch_java_major_ver_chars` is false for any string
starting with a digit: it is nonempty and differs from the sentinel
strings, whose first characters are not digits. -/
theorem guard_false_of_digit_head (c : Char) (t : List Char) (hc : c.isDigit = true) :
    ¬ (c :: t = ([] : List Char) ∨ c :: t = ("Unknown format" : String).data ∨
        c :: t = ("Error" : String).data) := by
  rintro (h | h | h)
  · exact List.noConfusion h
  · have h0 : c = 'U' := congrArg List.headI h
    rw [h0] at hc
    exact Bool.noConfusion hc
  · have h0 : c = 'E' := congrArg List.headI h
    rw [h0] at hc
    exact Bool.noConfusion hc

theorem guard_false_self (xs : List Char) (hne : xs ≠ [])
    (hd : ∀ c ∈ xs, c.isDigit = true) :
    ¬ (xs = ([] : List Char) ∨ xs = ("Unknown format" : String).data ∨
        xs = ("Error" : String).data) := by
  obtain ⟨x0, xs', hx⟩ := List.exists_cons_of_ne_nil hne
  subst hx
  exact guard_false_of_digit_head x0 xs' (hd x0 (List.mem_cons_self x0 xs'))

theorem guard_false_append (xs rest : List Char) (hne : xs ≠ [])
    (hd : ∀ c ∈ xs, c.isDigit = true) :
    ¬ (xs ++ rest = ([] : List Char) ∨ xs ++ rest = ("Unknown format" : String).data ∨
        xs ++ rest = ("Error" : String).data) := by
  obtain ⟨x0, xs', hx⟩ := List.exists_cons_of_ne_nil hne
  subst hx
  exact guard_false_of_digit_head x0 (xs' ++ rest)
    (hd x0 (List.mem_cons_self x0 xs'))

/-- C1: for every legacy-form version string `1.X` or `1.X.Y` (with `X` a
nonempty digit group and an arbitrary tail after the second dot, e.g.
`"1.8.0_301"`), the major-version parser returns the integer `X`; for
every modern-form string `X.Y(...)` whose leading integer is not `1`, and
for every bare digit-group string `X`, it returns the leading integer. -/
theorem fetch_java_major_ver_spec (xs t : List Char) (hne : xs ≠ [])
    (hd : ∀ c ∈ xs, c.isDigit = true) :
    fetch_java_major_ver ⟨'1' :: '.' :: xs⟩ = some (digitsToNat xs)
    ∧ fetch_java_major_ver ⟨'1' :: '.' :: (xs ++ '.' :: t)⟩ = some (digitsToNat xs)
    ∧ (digitsToNat xs ≠ 1 → fetch_java_major_ver ⟨xs ++ '.' :: t⟩ = some (digitsToNat xs))
    ∧ fetch_java_major_ver ⟨xs⟩ = some (digitsToNat xs) := by
  have h1d : Char.isDigit '1' = true := rfl
  have hdot : Char.isDigit '.' = false := rfl
  have hnl : ('.' : Char) ≠ '\n' := by decide
  have htx : List.takeWhile Char.isDigit xs = xs := takeWhile_all _ xs hd
  refine ⟨?_, ?_, ?_, ?_⟩
  · show fetch_java_major_ver_chars ('1' :: '.' :: xs) = some (digitsToNat xs)
    have hm : javaVerMatch ('1' :: '.' :: xs) = some (['1'], some xs) := by
      unfold javaVerMatch
      simp [List.takeWhile_cons, List.dropWhile_cons, h1d, hdot, htx, hne, hnl]
    unfold fetch_java_major_ver_chars
    rw [if_neg (guard_false_of_digit_head '1' ('.' :: xs) h1d), hm]
    rfl
  · show fetch_java_major_ver_chars ('1' :: '.' :: (xs ++ '.' :: t)) = some (digitsToNat xs)
    have ht2 : List.takeWhile Char.isDigit (xs ++ '.' :: t) = xs := by
      rw [takeWhile_append_all _ xs _ hd]
      simp [List.takeWhile_cons, hdot]
    have hm : javaVerMatch ('1' :: '.' :: (xs ++ '.' :: t)) = some (['1'], some xs) := by
      unfold javaVerMatch
      simp [List.takeWhile_cons, List.dropWhile_cons, h1d, hdot, ht2, hne, hnl]
    unfold fetch_java_major_ver_chars
    rw [if_neg (guard_false_of_digit_head '1' ('.' :: (xs ++ '.' :: t)) h1d), hm]
    rfl
  · intro hm1
    show fetch_java_major_ver_chars (xs ++ '.' :: t) = some (digitsToNat xs)
    have ht2 : List.takeWhile Char.isDigit (xs ++ '.' :: t) = xs := by
      rw [takeWhile_append_all _ xs _ hd]
      simp [List.takeWhile_cons, hdot]
    have hdr : List.dropWhile Char.isDigit (xs ++ '.' :: t) = '.' :: t := by
      rw [dropWhile_append_all _ xs _ hd]
      simp [List.dropWhile_cons, hdot]
    unfold fetch_java_major_ver_chars
    rw [if_neg (guard_false_append xs ('.' :: t) hne hd)]
    by_cases hcase : List.takeWhile Char.isDigit t = []
    · have hm : javaVerMatch (xs ++ '.' :: t) = some (xs, none) := by
        unfold javaVerMatch
        simp [ht2, hdr, hne, hnl, hcase]
      rw [hm]
    · have hm : javaVerMatch (xs ++ '.' :: t) = some (xs, some (List.takeWhile Char.isDigit t)) := by
        unfold javaVerMatch
        simp [ht2, hdr, hne, hnl, hcase]
      rw [hm]
      simp [hm1]
  · show fetch_java_major_ver_chars xs = some (digitsToNat xs)
    have hdr : List.dropWhile Char.isDigit xs = [] := dropWhile_all _ xs hd
    have hm : javaVerMatch xs = some (xs, none) := by
      unfold javaVerMatch
      simp [htx, hdr, hne]
    unfold fetch_java_major_ver_chars
    rw [if_neg (guard_false_self xs hne hd), hm]

/-- C1 witness: the spec's three examples, obtained from
`fetch_java_major_ver_spec` at concrete digit groups. -/
theorem fetch_java_major_ver_spec_witness :
    fetch_java_major_ver "1.8.0_301" = some 8
    ∧ fetch_java_major_ver "17.0.2" = some 17
    ∧ fetch_java_major_ver "11" = some 11 := by
  have h1 := (fetch_java_major_ver_spec ['8'] ['0', '_', '3', '0', '1']
    (by decide) (by decide)).2.1
  have h2 := (fetch_java_major_ver_spec ['1', '7'] ['0', '.', '2']
    (by decide) (by decide)).2.2.1 (by decide)
  have h3 := (fetch_java_major_ver_spec ['1', '1'] []
    (by decide) (by decide)).2.2.2
  exact ⟨h1, h2, h3⟩

/-- C2: for every detected Java major version `m`, the runtime-options
builder adds `--add-opens` flags iff `m ≥ 9` (the count of `--add-opens`
tokens is 6 exactly when `m ≥ 9` and 0 otherwise), and when it adds them
the option list is exactly the base options followed by the six fixed
module pairs — the same six for every `m ≥ 9`, never more or fewer. -/
theorem java_runtime_opts_spec (m : Nat) :
    ((java_runtime_opts (some m)).1.count "--add-opens" = if 9 ≤ m then 6 else 0)
    ∧ (9 ≤ m → (java_runtime_opts (some m)).1 =
        ["-Xms256m", "-Xmx1424m", "-XX:-UseGCOverheadLimit",
         "--add-opens", "java.base/java.lang=ALL-UNNAMED",
         "--add-opens", "java.base/java.io=ALL-UNNAMED",
         "--add-opens", "java.base/java.util=ALL-UNNAMED",
         "--add-opens", "java.base/java.util.concurrent=ALL-UNNAMED",
         "--add-opens", "java.base/sun.nio.ch=ALL-UNNAMED",
         "--add-opens", "java.base/java.net=ALL-UNNAMED"])
    ∧ (m < 9 → (java_runtime_opts (some m)).1 = base_java_opts)
    ∧ modules_to_open.length = 6 := by
  by_cases h9 : 9 ≤ m
  · have hm0 : m ≠ 0 := by omega
    refine ⟨?_, fun _ => ?_, fun hlt => absurd h9 (by omega), by decide⟩
    · simp only [java_runtime_opts, if_pos (And.intro hm0 h9), if_pos h9]
      decide
    · simp only [java_runtime_opts, if_pos (And.intro hm0 h9)]
      decide
  · have hcond : ¬ (m ≠ 0 ∧ 9 ≤ m) := fun hc => h9 hc.2
    refine ⟨?_, fun hge => absurd hge h9, fun _ => ?_, by decide⟩
    · simp only [java_runtime_opts, if_neg hcond, if_neg h9]
      decide
    · simp only [java_runtime_opts, if_neg hcond]

/-- C2 witness: the theorem applied at major versions 17 and 8. -/
theorem java_runtime_opts_spec_witness :
    (java_runtime_opts (some 17)).1.count "--add-opens" = 6
    ∧ (java_runtime_opts (some 8)).1 = base_java_opts := by
  constructor
  · have h := (java_runtime_opts_spec 17).1
    simpa using h
  · exact (java_runtime_opts_spec 8).2.2.1 (by decide)

/-- C3 counterexample: with library cache listing `["b.jar", "a.jar"]`
(a directory listing the OS returned in that order), the assembled
classpath keeps listing order — the jar entries are NOT sorted
(`lib/b.jar` precedes `lib/a.jar` lexicographically out of order), and
the same cache contents presented in a different listing order produce a
different classpath, refuting "repeated calls over the same cache
contents always produce the identical ordered classpath". -/
theorem compile_classpath_not_sorted_cex :
    compile_classpath_entries cfgEx (some ["b.jar", "a.jar"])
      = ["./classes", "./lib/b.jar", "./lib/a.jar"]
    ∧ ¬ List.Chain' (fun a b : String => charListLe a.data b.data = true)
        (List.tail (compile_classpath_entries cfgEx (some ["b.jar", "a.jar"])))
    ∧ compile_classpath_entries cfgEx (some ["b.jar", "a.jar"])
        ≠ compile_classpath_entries cfgEx (some ["a.jar", "b.jar"])
    ∧ (["b.jar", "a.jar"] : List String).Perm ["a.jar", "b.jar"] := by
  refine ⟨by decide, ?_, by decide, List.Perm.swap "a.jar" "b.jar" []⟩
  intro h
  have hb := List.Chain'.rel_head h
  exact absurd hb (by decide)

/-- C3 amended: the assembled classpath places the compiled-output
directory first, followed by the cached `.jar` archives in directory
listing order (the order `os.listdir` returned, which the code does not
sort); the classpath is a deterministic function of that listing. -/
theorem compile_classpath_shape (cfg : Cfg) (listing : List String) :
    compile_classpath_entries cfg (some listing)
      = CLASSES_DIR cfg ::
          (listing.filter (fun f => strEndsWith f ".jar")).map
            (fun f => os_path_join cfg (LIB_DIR cfg) f)
    ∧ (compile_classpath_entries cfg (some listing)).head? = some (CLASSES_DIR cfg) :=
  ⟨rfl, rfl⟩

/-- C10: given the same filesystem state (same library-cache state and
directory listing), the classpath assembled by the `compile` command
(build.py lines 376–384) and the classpath assembled by the `run`
command (build.py lines 449–452) are identical, entry for entry and as
the joined string. -/
theorem classpath_compile_run_agree (cfg : Cfg) (lib : Option (List String)) :
    run_classpath_entries cfg lib = compile_classpath_entries cfg lib
    ∧ run_classpath_str cfg lib = compile_classpath_str cfg lib := by
  cases lib with
  | none => exact ⟨rfl, rfl⟩
  | some listing => exact ⟨rfl, rfl⟩

/-- C4 counterexample: with probed Java version string `"beta"` (which
parses to no major version), the shared version gate yields only a
warning, the `run` command still spawns the Java process, and the
`compile` command proceeds past the gate — the unparseable version is
not fatal. -/
theorem unparseable_version_not_fatal_cex :
    java_version_gate (some "beta") = GateResult.warn
    ∧ RunOutcome.isSpawned (run_command cfgEx runStUnparseable) = true
    ∧ compile_java cfgEx compileStUnparseable = CompileOutcome.noopNoSources := by
  refine ⟨by decide, by decide, by decide⟩

/-- C4 amended: the minimum-version gate used by both `compile` and
`run` is fatal exactly for a parsed (nonzero) major version below the
minimum; an unparseable version string (parse result `none`) is
downgraded to a warning and the command proceeds, and a parsed version
at or above the minimum also passes. -/
theorem java_version_gate_spec (vs : Option String) :
    (vs.bind fetch_java_major_ver = none → java_version_gate vs ≠ GateResult.fatal)
    ∧ (∀ m, vs.bind fetch_java_major_ver = some m → m ≠ 0 → m < MIN_JAVA_VERSION →
        java_version_gate vs = GateResult.fatal)
    ∧ (∀ m, vs.bind fetch_java_major_ver = some m → MIN_JAVA_VERSION ≤ m →
        java_version_gate vs ≠ GateResult.fatal) := by
  have e : java_version_gate vs =
      (if (vs.bind fetch_java_major_ver).getD 0 ≠ 0 ∧
            (vs.bind fetch_java_major_ver).getD 0 < MIN_JAVA_VERSION then GateResult.fatal
       else if (vs.bind fetch_java_major_ver).getD 0 = 0 ∧
            ¬(vs = none ∨ vs = some "Error" ∨ vs = some "Unknown format") then GateResult.warn
       else GateResult.ok) := rfl
  refine ⟨?_, ?_, ?_⟩
  · intro hjm
    rw [e, hjm]
    simp only [Option.getD_none, ne_eq, not_true_eq_false, false_and, if_false]
    split_ifs <;> decide
  · intro m hjm hm0 hlt
    rw [e, hjm]
    simp only [Option.getD_some]
    rw [if_pos (And.intro hm0 hlt)]
  · intro m hjm hge
    rw [e, hjm]
    simp only [Option.getD_some]
    rw [if_neg (fun hc => absurd hge (by omega))]
    split_ifs <;> decide

/-- C4 witness: the amended gate theorem applied at the unparseable
string `"beta"` and at the sub-minimum string `"1.7"` (which parses to
major 7 < 8). -/
theorem java_version_gate_spec_witness :
    java_version_gate (some "beta") ≠ GateResult.fatal
    ∧ java_version_gate (some "1.7") = GateResult.fatal := by
  constructor
  · exact (java_version_gate_spec (some "beta")).1 (by decide)
  · exact (java_version_gate_spec (some "1.7")).2.1 7 (by decide) (by decide) (by decide)

/-- C5: whenever the compiled-classes directory is absent or empty, the
`run` command never reaches the spawn step, and — provided the earlier
checks in source order pass (tool present, version gate not fatal, venv
directory present) — it aborts precisely with the corresponding
state-precondition error. -/
theorem run_missing_classes_never_spawns (cfg : Cfg) (st : RunState)
    (h : st.classes_isdir = false ∨ st.classes_listing = []) :
    (∀ c, run_command cfg st ≠ RunOutcome.spawned c)
    ∧ (st.java_found = true → st.venv_dir_isdir = true →
        java_version_gate st.java_version_str ≠ GateResult.fatal →
        run_command cfg st = RunOutcome.fatalClassesMissing
          ∨ run_command cfg st = RunOutcome.fatalClassesEmpty) := by
  constructor
  · intro c
    unfold run_command
    rcases h with h | h <;> split_ifs <;> simp_all
  · intro hj hv hg
    unfold run_command
    rcases h with h | h <;> split_ifs <;> simp_all

/-- C5 witness: the theorem applied to a state whose classes directory
is absent; the outcome is the classes-missing precondition error. -/
theorem run_missing_classes_witness :
    run_command cfgEx runStNoClasses = RunOutcome.fatalClassesMissing := by
  rcases (run_missing_classes_never_spawns cfgEx runStNoClasses (Or.inl rfl)).2 rfl rfl
      (by decide) with h | h
  · exact h
  · exact absurd h (by decide)

/-- C6: when the compiler tool is present, the version gate passes and
the source root exists but contains no `.java` files, the `compile`
command is a no-op that reports success: it returns without invoking the
compiler and without any fatal (nonzero-exit) outcome. -/
theorem compile_empty_source_noop (cfg : Cfg) (st : CompileState)
    (h1 : st.javac_found = true)
    (h2 : java_version_gate st.java_version_str ≠ GateResult.fatal)
    (h3 : st.src_isdir = true)
    (h4 : st.src_walk.filter (fun f => strEndsWith f ".java") = []) :
    compile_java cfg st = CompileOutcome.noopNoSources
    ∧ (∀ c, compile_java cfg st ≠ CompileOutcome.invoked c)
    ∧ (compile_java cfg st).isFatal = false := by
  have he : compile_java cfg st = CompileOutcome.noopNoSources := by
    simp [compile_java, h1, h2, h3, h4]
  refine ⟨he, fun c => by rw [he]; simp, by rw [he]; rfl⟩

/-- C6 witness: the theorem applied to a state whose source root holds
only a non-Java file. -/
theorem compile_empty_source_witness :
    compile_java cfgEx compileStEmptySrc = CompileOutcome.noopNoSources :=
  (compile_empty_source_noop cfgEx compileStEmptySrc rfl (by decide) rfl (by decide)).1

/-- C7: whenever the venv directory is present with its interpreter
executable in place, `ensure_venv` neither removes nor recreates the
directory — and when the probed interpreter version lies outside the
allowed set, the only effect is the mismatch warning. -/
theorem ensure_venv_frame (st : VenvState)
    (h1 : st.venv_dir_isdir = true) (h2 : st.venv_python_exists = true) :
    VenvEffect.removeDir ∉ ensure_venv st
    ∧ VenvEffect.createDir ∉ ensure_venv st
    ∧ (∀ tup, st.version_tuple = some tup → tup ∉ ALLOWED_PYTHON_VERSIONS →
        ensure_venv st = [VenvEffect.warnMismatch]) := by
  have hcond : ¬ (¬ st.venv_dir_isdir ∨ ¬ st.venv_python_exists) := by
    simp [h1, h2]
  have e : ensure_venv st =
      (match st.version_tuple with
       | some tup =>
         if tup ∉ ALLOWED_PYTHON_VERSIONS then [VenvEffect.warnMismatch]
         else [VenvEffect.infoCompatible]
       | none => [VenvEffect.warnUnknownVersion]) := by
    unfold ensure_venv
    rw [if_neg hcond]
  refine ⟨?_, ?_, ?_⟩
  · rw [e]
    cases st.version_tuple with
    | none => simp
    | some tup =>
      show VenvEffect.removeDir ∉
        (if tup ∉ ALLOWED_PYTHON_VERSIONS then [VenvEffect.warnMismatch]
         else [VenvEffect.infoCompatible])
      split_ifs <;> simp
  · rw [e]
    cases st.version_tuple with
    | none => simp
    | some tup =>
      show VenvEffect.createDir ∉
        (if tup ∉ ALLOWED_PYTHON_VERSIONS then [VenvEffect.warnMismatch]
         else [VenvEffect.infoCompatible])
      split_ifs <;> simp
  · intro tup htup hnot
    rw [e, htup]
    simp [hnot]

/-- C7 witness: the theorem applied to a present, complete venv whose
interpreter probes to Python 3.12 (outside the allowed versions): the
run emits only the mismatch warning and performs no removal or
recreation. -/
theorem ensure_venv_frame_witness :
    VenvEffect.removeDir ∉ ensure_venv venvStMismatch
    ∧ ensure_venv venvStMismatch = [VenvEffect.warnMismatch] := by
  have h := ensure_venv_frame venvStMismatch rfl rfl
  exact ⟨h.1, h.2.2 (3, 12) rfl (by decide)⟩

/-- C8 counterexample: on Windows the subprocess runner sets
`shell=True` (build.py lines 107–109), so the command is subject to
shell interpretation there — refuting "never hands the command to a
shell" on every host platform. -/
theorem run_cmd_shell_on_windows_cex :
    (run_cmd_invocation OSKind.windows false ["java", "-version"] none).shell = true := by
  decide

/-- C8 amended: the subprocess runner always passes its command as an
explicit argument vector (it never joins it into a command string
itself), but it enables shell interpretation exactly on Windows; only on
non-Windows platforms is the command executed without a shell. -/
theorem run_cmd_invocation_spec (osk : OSKind) (verbose : Bool) (cmd : List String)
    (co : Option Bool) :
    (run_cmd_invocation osk verbose cmd co).argv = cmd
    ∧ ((run_cmd_invocation osk verbose cmd co).shell = false ↔ osk = OSKind.posix)
    ∧ (run_cmd_invocation osk verbose cmd co).capture = co.getD (!verbose) := by
  cases osk <;> simp [run_cmd_invocation]

/-- C9: evaluation of the `info` exit-code model at two failing states.
With `java` absent from the search path (POSIX), `subprocess.run` raises
`FileNotFoundError`, `run_cmd` turns it into `perr` → `sys.exit(1)`, and
the `except FileNotFoundError` recovery in `fetch_java_version_str`
never runs because the process has already exited; likewise, when the
script interpreter's `--version` probe exits nonzero, the `check=True`
call in `fetch_py_version` exits the process with code 1, bypassing the
`except Exception` handler (SystemExit is not an Exception).  In both
states `info` terminates with exit code 1, not 0. -/
theorem info_exit_code_failing_inputs :
    info_exit_code infoStNoJava = 1 ∧ info_exit_code infoStPyProbeFails = 1 := by
  constructor <;> decide
